import Mathlib

/-!
# Verification of the AI content-generation gateway

A shallow embedding of the gateway layer of the repository: the client-side
content service (`generatePromptHash`, `getBestProvider`, `generateContent`,
`crossCheckContent`) and the provider edge function (`checkRateLimit`, the
concurrency-bounded queue `enqueueRequest`, and the request handler's
error/catch behaviour).

External effects are made explicit:
* the response cache (a database table keyed by `prompt_hash`) is a list of
  rows threaded through the functions as state;
* the edge-function invocation `supabase.functions.invoke('generate-content')`
  is a parameter `invoke` returning the `{ data, error }` shape it has in the
  source;
* the SHA-256 digest (`crypto.subtle.digest`, a platform primitive outside the
  repository) is abstracted as a parameter `digest : String → String`;
  statements that depend on the digest never producing the same output on the
  two distinct inputs at hand take injectivity of `digest` as a hypothesis,
  the formal counterpart of collision resistance.
-/

/-- The four content types (the `ContentType` union in the source). -/
inductive ContentType
  | blog
  | social
  | email
  | description
  deriving DecidableEq, Repr

/-- The four AI providers (the `AIProvider` union in the source). -/
inductive AIProvider
  | mistral
  | gemini
  | anthropic
  | cohere
  deriving DecidableEq, Repr

/-- The string literal a `ContentType` value denotes in the source. -/
def ContentType.toStr : ContentType → String
  | .blog => "blog"
  | .social => "social"
  | .email => "email"
  | .description => "description"

/-- The string literal an `AIProvider` value denotes in the source. -/
def AIProvider.toStr : AIProvider → String
  | .mistral => "mistral"
  | .gemini => "gemini"
  | .anthropic => "anthropic"
  | .cohere => "cohere"

/-- The pre-digest string of `generatePromptHash`:
`const data = ` the template literal `prompt-contentType-provider`. -/
def promptHashData (prompt : String) (ct : ContentType) (pv : AIProvider) : String :=
  prompt ++ "-" ++ ct.toStr ++ "-" ++ pv.toStr

/-- `generatePromptHash(prompt, contentType, provider)`: the hex SHA-256 digest
of `promptHashData`, with the digest abstracted as the parameter `digest`. -/
def generatePromptHash (digest : String → String) (prompt : String) (ct : ContentType)
    (pv : AIProvider) : String :=
  digest (promptHashData prompt ct pv)

/-- Splitting a character list at a separator that occurs in neither prefix is
unambiguous. -/
theorem append_sep_inj (sep : Char) (a : List Char) :
    ∀ (a' b b' : List Char), sep ∉ a → sep ∉ a' →
      a ++ sep :: b = a' ++ sep :: b' → a = a' ∧ b = b' := by
  induction a with
  | nil =>
    intro a' b b' _ ha' h
    cases a' with
    | nil => simpa using h
    | cons y ys =>
      simp only [List.nil_append, List.cons_append, List.cons.injEq] at h
      exact absurd (h.1 ▸ List.mem_cons_self y ys) (h.1 ▸ ha')
  | cons x xs ih =>
    intro a' b b' ha ha' h
    cases a' with
    | nil =>
      simp only [List.nil_append, List.cons_append, List.cons.injEq] at h
      exact absurd (h.1 ▸ List.mem_cons_self x xs) (h.1 ▸ ha)
    | cons y ys =>
      simp only [List.cons_append, List.cons.injEq] at h
      obtain ⟨rfl, h2⟩ := h
      have hxs : sep ∉ xs := fun hm => ha (List.mem_cons_of_mem _ hm)
      have hys : sep ∉ ys := fun hm => ha' (List.mem_cons_of_mem _ hm)
      obtain ⟨he, hb⟩ := ih ys b b' hxs hys h2
      exact ⟨by rw [he], hb⟩

theorem promptHashData_data (p : String) (c : ContentType) (v : AIProvider) :
    (promptHashData p c v).data =
      p.data ++ '-' :: (c.toStr.data ++ '-' :: v.toStr.data) := by
  simp [promptHashData, String.data_append]

theorem contentType_sep_free (c : ContentType) : '-' ∉ c.toStr.data.reverse := by
  cases c <;> decide

theorem provider_sep_free (v : AIProvider) : '-' ∉ v.toStr.data.reverse := by
  cases v <;> decide

theorem contentType_toStr_inj {c₁ c₂ : ContentType} (h : c₁.toStr.data = c₂.toStr.data) :
    c₁ = c₂ := by
  cases c₁ <;> cases c₂ <;> first | rfl | (exfalso; revert h; decide)

theorem provider_toStr_inj {v₁ v₂ : AIProvider} (h : v₁.toStr.data = v₂.toStr.data) :
    v₁ = v₂ := by
  cases v₁ <;> cases v₂ <;> first | rfl | (exfalso; revert h; decide)

/-- The pre-digest string determines the request triple: although the separator
is a plain dash that may also occur inside the prompt, the content-type and
provider fields are drawn from fixed dash-free literals, so the encoding is
injective. -/
theorem promptHashData_inj {p₁ p₂ : String} {c₁ c₂ : ContentType} {v₁ v₂ : AIProvider}
    (h : promptHashData p₁ c₁ v₁ = promptHashData p₂ c₂ v₂) :
    p₁ = p₂ ∧ c₁ = c₂ ∧ v₁ = v₂ := by
  have hd := congrArg String.data h
  rw [promptHashData_data, promptHashData_data] at hd
  have hr := congrArg List.reverse hd
  simp only [List.reverse_append, List.reverse_cons, List.append_assoc,
    List.singleton_append, List.nil_append] at hr
  obtain ⟨hv, hr₂⟩ :=
    append_sep_inj '-' v₁.toStr.data.reverse v₂.toStr.data.reverse _ _
      (provider_sep_free v₁) (provider_sep_free v₂) hr
  obtain ⟨hc, hp⟩ :=
    append_sep_inj '-' c₁.toStr.data.reverse c₂.toStr.data.reverse _ _
      (contentType_sep_free c₁) (contentType_sep_free c₂) hr₂
  refine ⟨?_, ?_, ?_⟩
  · exact String.ext (List.reverse_injective hp)
  · exact contentType_toStr_inj (List.reverse_injective hc)
  · exact provider_toStr_inj (List.reverse_injective hv)

/-- C4. Fingerprint determinism and distinctness: `generatePromptHash` is a
pure function — repeated calls on an identical `(prompt, contentType,
provider)` triple yield the same fingerprint — and, for any injective digest
(the idealisation of a collision-free cryptographic digest), two triples that
differ in at least one field yield different fingerprints, because the string
the digest is taken over determines the triple. -/
theorem generatePromptHash_deterministic_distinct (digest : String → String)
    (hinj : Function.Injective digest) :
    (∀ (p : String) (c : ContentType) (v : AIProvider),
      generatePromptHash digest p c v = generatePromptHash digest p c v) ∧
    (∀ (p₁ p₂ : String) (c₁ c₂ : ContentType) (v₁ v₂ : AIProvider),
      ¬(p₁ = p₂ ∧ c₁ = c₂ ∧ v₁ = v₂) →
      generatePromptHash digest p₁ c₁ v₁ ≠ generatePromptHash digest p₂ c₂ v₂) := by
  refine ⟨fun _ _ _ => rfl, fun p₁ p₂ c₁ c₂ v₁ v₂ hne h => ?_⟩
  exact hne (promptHashData_inj (hinj h))

/-- Witness for C4 at a concrete input: the identity digest is injective, and
two triples differing in the prompt get distinct fingerprints, while repeated
calls agree. -/
theorem generatePromptHash_deterministic_distinct_witness :
    generatePromptHash id "Write about Bali" ContentType.blog AIProvider.anthropic =
      generatePromptHash id "Write about Bali" ContentType.blog AIProvider.anthropic ∧
    generatePromptHash id "Write about Bali" ContentType.blog AIProvider.anthropic ≠
      generatePromptHash id "Write about Oslo" ContentType.blog AIProvider.anthropic :=
  ⟨(generatePromptHash_deterministic_distinct id fun _ _ h => h).1 _ _ _,
   (generatePromptHash_deterministic_distinct id fun _ _ h => h).2
     "Write about Bali" "Write about Oslo" _ _ _ _ (by simp)⟩

/-! ## The response cache and `generateContent` -/

/-- A row of the `ai_responses` table, with the columns `generateContent`
reads and writes. -/
structure CacheRow where
  prompt_hash : String
  prompt : String
  content_type : ContentType
  provider : AIProvider
  response : String
  usage_count : Nat
  deriving DecidableEq, Repr

/-- The cache table state: the list of rows of `ai_responses`. -/
abbrev CacheState := List CacheRow

/-- The `{ content }` payload the `generate-content` edge function produces;
`content` is absent when the backend returned nothing. -/
structure GenPayload where
  content : Option String
  deriving DecidableEq, Repr

/-- The `{ data, error }` shape `supabase.functions.invoke` resolves to. -/
structure InvokeResponse where
  data : Option GenPayload
  error : Option String
  deriving DecidableEq, Repr

/-- The request body `generateContent` sends to the edge function. -/
structure GenRequest where
  prompt : String
  contentType : ContentType
  provider : AIProvider
  deriving DecidableEq, Repr

/-- `.select(...).eq('prompt_hash', h).single()`: the PostgREST `single`
modifier yields a row exactly when precisely one row matches; on zero or
several matches it yields an error, which the source discards by
destructuring only `data`, leaving `cachedResponse` null. -/
def selectSingle (st : CacheState) (h : String) : Option CacheRow :=
  match st.filter fun r => r.prompt_hash = h with
  | [r] => some r
  | _ => none

/-- `.update({ usage_count: n }).eq('prompt_hash', h)`: set `usage_count` to
the given value on every row whose `prompt_hash` matches. -/
def bumpUsage (st : CacheState) (h : String) (n : Nat) : CacheState :=
  st.map fun r => if r.prompt_hash = h then { r with usage_count := n } else r

deriving instance DecidableEq for Except

/-- The outcome of one `generateContent` call: the returned (or thrown)
result, the cache state after the call, and how many times the
`generate-content` edge function was invoked during the call. -/
structure GenOutcome where
  result : Except String String
  state : CacheState
  invokeCalls : Nat
  deriving DecidableEq, Repr

/-- The body of `generateContent`'s `try` block: compute the prompt hash,
consult the cache (`single()`); on a hit, bump the row's usage count to the
read count plus one and return the cached response; on a miss, invoke the
`generate-content` edge function, rethrow its `error` verbatim, throw
`'No content received from the AI provider'` when `data?.content` is falsy
(absent or the empty string), and otherwise insert a fresh row with
`usage_count: 1` and return the content. -/
def generateContentTry (invoke : GenRequest → InvokeResponse) (digest : String → String)
    (prompt : String) (ct : ContentType) (pv : AIProvider) (st : CacheState) : GenOutcome :=
  let promptHash := generatePromptHash digest prompt ct pv
  match selectSingle st promptHash with
  | some cached =>
      { result := .ok cached.response
        state := bumpUsage st promptHash (cached.usage_count + 1)
        invokeCalls := 0 }
  | none =>
      let resp := invoke ⟨prompt, ct, pv⟩
      match resp.error with
      | some e => { result := .error e, state := st, invokeCalls := 1 }
      | none =>
        match resp.data with
        | none =>
            { result := .error "No content received from the AI provider"
              state := st, invokeCalls := 1 }
        | some payload =>
          match payload.content with
          | none =>
              { result := .error "No content received from the AI provider"
                state := st, invokeCalls := 1 }
          | some c =>
            if c = "" then
              { result := .error "No content received from the AI provider"
                state := st, invokeCalls := 1 }
            else
              { result := .ok c
                state := st ++ [⟨promptHash, prompt, ct, pv, c, 1⟩]
                invokeCalls := 1 }

/-- `generateContent`: the `try` body wrapped in the source's `catch`, which
logs and rethrows the fixed message
`'Failed to generate content. Please try again.'` for every failure. -/
def generateContent (invoke : GenRequest → InvokeResponse) (digest : String → String)
    (prompt : String) (ct : ContentType) (pv : AIProvider) (st : CacheState) : GenOutcome :=
  let o := generateContentTry invoke digest prompt ct pv st
  match o.result with
  | .ok _ => o
  | .error _ => { o with result := .error "Failed to generate content. Please try again." }

theorem selectSingle_of_no_match (st : CacheState) (h : String)
    (hn : ∀ r ∈ st, r.prompt_hash ≠ h) : selectSingle st h = none := by
  unfold selectSingle
  have hf : st.filter (fun r => r.prompt_hash = h) = [] := by
    rw [List.filter_eq_nil_iff]
    intro r hr
    simpa using hn r hr
  rw [hf]

theorem selectSingle_append_single (st : CacheState) (row : CacheRow)
    (hn : ∀ r ∈ st, r.prompt_hash ≠ row.prompt_hash) :
    selectSingle (st ++ [row]) row.prompt_hash = some row := by
  unfold selectSingle
  rw [List.filter_append]
  have hf : st.filter (fun r => r.prompt_hash = row.prompt_hash) = [] := by
    rw [List.filter_eq_nil_iff]
    intro r hr
    simpa using hn r hr
  rw [hf]
  simp

theorem map_id_of_eq {α : Type} (l : List α) (f : α → α) (h : ∀ x ∈ l, f x = x) :
    l.map f = l := by
  induction l with
  | nil => rfl
  | cons a t ih =>
    simp only [List.map_cons, h a (List.mem_cons_self a t)]
    rw [ih fun x hx => h x (List.mem_cons_of_mem a hx)]

theorem bumpUsage_append (st : CacheState) (row : CacheRow) (n : Nat)
    (hn : ∀ r ∈ st, r.prompt_hash ≠ row.prompt_hash) :
    bumpUsage (st ++ [row]) row.prompt_hash n = st ++ [{ row with usage_count := n }] := by
  unfold bumpUsage
  rw [List.map_append]
  congr 1
  · exact map_id_of_eq st _ fun r hr => by simp [hn r hr]
  · simp

/-- C1. Cache idempotence: from a well-formed cache state with no entry for
the triple `(prompt, ct, pv)`, a first `generateContent` call whose provider
invocation succeeds with non-empty content `c` returns `c`, performs exactly
one provider invocation, and appends exactly one cache row carrying
`usage_count = 1`; a second call on the same triple (with any provider
behaviour) returns the identical content from the cache, performs no
provider invocation, bumps that row's `usage_count` to exactly 2, and adds
no further rows. -/
theorem cache_idempotence
    (invoke invoke₂ : GenRequest → InvokeResponse) (digest : String → String)
    (hinj : Function.Injective digest)
    (prompt : String) (ct : ContentType) (pv : AIProvider) (st : CacheState) (c : String)
    (hwf : ∀ r ∈ st,
      r.prompt_hash = generatePromptHash digest r.prompt r.content_type r.provider)
    (hmiss : ∀ r ∈ st, ¬(r.prompt = prompt ∧ r.content_type = ct ∧ r.provider = pv))
    (hsucc : invoke ⟨prompt, ct, pv⟩ = ⟨some ⟨some c⟩, none⟩) (hc : c ≠ "") :
    generateContent invoke digest prompt ct pv st =
      ⟨.ok c, st ++ [⟨generatePromptHash digest prompt ct pv, prompt, ct, pv, c, 1⟩], 1⟩ ∧
    generateContent invoke₂ digest prompt ct pv
        (st ++ [⟨generatePromptHash digest prompt ct pv, prompt, ct, pv, c, 1⟩]) =
      ⟨.ok c, st ++ [⟨generatePromptHash digest prompt ct pv, prompt, ct, pv, c, 2⟩], 0⟩ := by
  have hkey : ∀ r ∈ st, r.prompt_hash ≠ generatePromptHash digest prompt ct pv := by
    intro r hr heq
    rw [hwf r hr] at heq
    exact hmiss r hr (promptHashData_inj (hinj heq))
  have h1 : selectSingle st (generatePromptHash digest prompt ct pv) = none :=
    selectSingle_of_no_match st _ hkey
  constructor
  · simp [generateContent, generateContentTry, h1, hsucc, hc]
  · have h2 : selectSingle
        (st ++ [⟨generatePromptHash digest prompt ct pv, prompt, ct, pv, c, 1⟩])
        (generatePromptHash digest prompt ct pv) = some
        ⟨generatePromptHash digest prompt ct pv, prompt, ct, pv, c, 1⟩ :=
      selectSingle_append_single st _ hkey
    have h3 := bumpUsage_append st
      ⟨generatePromptHash digest prompt ct pv, prompt, ct, pv, c, 1⟩ 2 hkey
    simp [generateContent, generateContentTry, h2, h3]

/-- Witness for C1 on the end-to-end scenario: the request
`{prompt: "Write about Bali", contentType: "blog", provider: "anthropic"}`
against an empty cache, issued twice. -/
theorem cache_idempotence_witness :
    generateContent (fun _ => ⟨some ⟨some "Bali text"⟩, none⟩) id
        "Write about Bali" ContentType.blog AIProvider.anthropic [] =
      ⟨.ok "Bali text",
        [⟨generatePromptHash id "Write about Bali" ContentType.blog AIProvider.anthropic,
          "Write about Bali", ContentType.blog, AIProvider.anthropic, "Bali text", 1⟩], 1⟩ ∧
    generateContent (fun _ => ⟨none, some "transport error"⟩) id
        "Write about Bali" ContentType.blog AIProvider.anthropic
        [⟨generatePromptHash id "Write about Bali" ContentType.blog AIProvider.anthropic,
          "Write about Bali", ContentType.blog, AIProvider.anthropic, "Bali text", 1⟩] =
      ⟨.ok "Bali text",
        [⟨generatePromptHash id "Write about Bali" ContentType.blog AIProvider.anthropic,
          "Write about Bali", ContentType.blog, AIProvider.anthropic, "Bali text", 2⟩], 0⟩ := by
  have h := cache_idempotence (fun _ => ⟨some ⟨some "Bali text"⟩, none⟩)
    (fun _ => ⟨none, some "transport error"⟩) id (fun _ _ hx => hx)
    "Write about Bali" ContentType.blog AIProvider.anthropic [] "Bali text"
    (by simp) (by simp) rfl (by decide)
  simpa using h

/-! ## The serve handler's catch and C7 -/

/-- An HTTP response of the edge function: status code, and either a
`{ content }` body (`.ok`) or an `{ error }` body (`.error`). -/
structure HttpResponse where
  status : Nat
  body : Except String String
  deriving DecidableEq, Repr

/-- The `serve` handler's result mapping: a successful operation returns a
200 response with `{ content }`; any error thrown inside the `try` block is
caught and returned as a 500 response whose body carries `error.message`
verbatim. -/
def serveCatch (op : Except String String) : HttpResponse :=
  match op with
  | .ok content => ⟨200, .ok content⟩
  | .error e => ⟨500, .error e⟩

/-- C7 refuted at a concrete input: a provider transport error with message
`"upstream timeout"` does not propagate verbatim to `generateContent`'s
caller — the `catch` block replaces it with the fixed message
`'Failed to generate content. Please try again.'` (the cache is nevertheless
left unchanged). -/
theorem provider_error_not_verbatim :
    (generateContent (fun _ => ⟨none, some "upstream timeout"⟩) id "p" ContentType.blog
        AIProvider.anthropic []).result =
      .error "Failed to generate content. Please try again." ∧
    (generateContent (fun _ => ⟨none, some "upstream timeout"⟩) id "p" ContentType.blog
        AIProvider.anthropic []).result ≠ .error "upstream timeout" ∧
    (generateContent (fun _ => ⟨none, some "upstream timeout"⟩) id "p" ContentType.blog
        AIProvider.anthropic []).state = [] := by
  refine ⟨rfl, ?_, rfl⟩
  decide

/-- C7 (amended). Provider error propagation: on a cache miss, a provider or
transport error `e` from the edge-function invocation propagates unmodified
through `generateContent`'s `try` body; the edge function's own handler
surfaces `e` verbatim as a 500 `{ error }` response; at no layer is the
invocation retried (exactly one invocation is made); and the cache is left
unchanged — no row is inserted for the failed request's fingerprint. The
client-side `catch` in `generateContent`, however, replaces the error with
the fixed message `'Failed to generate content. Please try again.'` before
rethrowing to its caller. -/
theorem provider_error_handling
    (invoke : GenRequest → InvokeResponse) (digest : String → String)
    (prompt : String) (ct : ContentType) (pv : AIProvider) (st : CacheState) (e : String)
    (hmiss : selectSingle st (generatePromptHash digest prompt ct pv) = none)
    (herr : (invoke ⟨prompt, ct, pv⟩).error = some e) :
    generateContentTry invoke digest prompt ct pv st = ⟨.error e, st, 1⟩ ∧
    serveCatch (.error e) = ⟨500, .error e⟩ ∧
    generateContent invoke digest prompt ct pv st =
      ⟨.error "Failed to generate content. Please try again.", st, 1⟩ := by
  have h1 : generateContentTry invoke digest prompt ct pv st = ⟨.error e, st, 1⟩ := by
    simp [generateContentTry, hmiss, herr]
  exact ⟨h1, rfl, by simp [generateContent, h1]⟩

/-- Witness for C7 (amended) at a concrete erroring invocation. -/
theorem provider_error_handling_witness :
    generateContentTry (fun _ => ⟨none, some "boom"⟩) id "p" ContentType.social
        AIProvider.gemini [] = ⟨.error "boom", [], 1⟩ ∧
    serveCatch (.error "boom") = ⟨500, .error "boom"⟩ ∧
    generateContent (fun _ => ⟨none, some "boom"⟩) id "p" ContentType.social
        AIProvider.gemini [] =
      ⟨.error "Failed to generate content. Please try again.", [], 1⟩ :=
  provider_error_handling (fun _ => ⟨none, some "boom"⟩) id "p" ContentType.social
    AIProvider.gemini [] "boom" rfl rfl

/-! ## Prompt formatting in the edge function and C8 -/

/-- The edge function's `basePrompt` template literal, parametrised over the
content type exactly as in the source. -/
def basePrompt (ct : ContentType) : String :=
  "Create " ++ (if ct = ContentType.blog then "a" else "") ++ " " ++ ct.toStr ++
    " content for a luxury LGBTQ+ travel agency called QueerLuxe Travel based in San Diego. The content should be inclusive, welcoming, and focused on luxury travel experiences."

/-- The edge function's `formattedPrompt`, built from a system-prompt
template `tmpl` (of which `basePrompt` is the source's instance):
`` `${basePrompt}\n\nSpecific request: ${prompt}` ``. -/
def formattedPromptWith (tmpl : ContentType → String) (ct : ContentType)
    (prompt : String) : String :=
  tmpl ct ++ "\n\nSpecific request: " ++ prompt

/-- The composed pipeline: the client `generateContent` whose edge-function
invocation expands the system-prompt template and hands the formatted prompt
to the provider backend. -/
def runGateway (tmpl : ContentType → String) (backend : AIProvider → String → InvokeResponse)
    (digest : String → String) (prompt : String) (ct : ContentType) (pv : AIProvider)
    (st : CacheState) : GenOutcome :=
  generateContent
    (fun req => backend req.provider (formattedPromptWith tmpl req.contentType req.prompt))
    digest prompt ct pv st

set_option maxRecDepth 4000 in
theorem formatted_ne_hashData (prompt : String) (ct : ContentType) (pv : AIProvider) :
    promptHashData prompt ct pv ≠ formattedPromptWith basePrompt ct prompt := by
  intro h
  have hl := congrArg String.length h
  simp only [promptHashData, formattedPromptWith, String.length_append] at hl
  have h1 : ct.toStr.length ≤ 11 := by cases ct <;> decide
  have h2 : pv.toStr.length ≤ 9 := by cases pv <;> decide
  have h3 : 100 ≤ (basePrompt ct).length := by cases ct <;> decide
  have h4 : ("\n\nSpecific request: " : String).length = 20 := by decide
  have h5 : ("-" : String).length = 1 := by decide
  rw [h4, h5] at hl
  omega

/-- C8. Template independence of the cache key: on a cache miss the row
`generateContent` inserts is keyed by the fingerprint of the original
unformatted prompt, for every system-prompt template; hence two runs through
the gateway that differ only in the template produce cache states with
identical fingerprints; and, for an injective digest, that fingerprint
differs from the digest of the template-expanded prompt actually sent to the
provider. -/
theorem fingerprint_template_independent
    (tmpl₁ tmpl₂ : ContentType → String) (backend : AIProvider → String → InvokeResponse)
    (digest : String → String) (hinj : Function.Injective digest)
    (prompt : String) (ct : ContentType) (pv : AIProvider) (st : CacheState) (c₁ c₂ : String)
    (hmiss : selectSingle st (generatePromptHash digest prompt ct pv) = none)
    (h₁ : backend pv (formattedPromptWith tmpl₁ ct prompt) = ⟨some ⟨some c₁⟩, none⟩)
    (h₂ : backend pv (formattedPromptWith tmpl₂ ct prompt) = ⟨some ⟨some c₂⟩, none⟩)
    (hc₁ : c₁ ≠ "") (hc₂ : c₂ ≠ "") :
    (runGateway tmpl₁ backend digest prompt ct pv st).state =
      st ++ [⟨generatePromptHash digest prompt ct pv, prompt, ct, pv, c₁, 1⟩] ∧
    (runGateway tmpl₂ backend digest prompt ct pv st).state =
      st ++ [⟨generatePromptHash digest prompt ct pv, prompt, ct, pv, c₂, 1⟩] ∧
    ((runGateway tmpl₁ backend digest prompt ct pv st).state.map fun r => r.prompt_hash) =
      ((runGateway tmpl₂ backend digest prompt ct pv st).state.map fun r => r.prompt_hash) ∧
    generatePromptHash digest prompt ct pv ≠
      digest (formattedPromptWith basePrompt ct prompt) := by
  have e₁ : (runGateway tmpl₁ backend digest prompt ct pv st).state =
      st ++ [⟨generatePromptHash digest prompt ct pv, prompt, ct, pv, c₁, 1⟩] := by
    simp [runGateway, generateContent, generateContentTry, hmiss, h₁, hc₁]
  have e₂ : (runGateway tmpl₂ backend digest prompt ct pv st).state =
      st ++ [⟨generatePromptHash digest prompt ct pv, prompt, ct, pv, c₂, 1⟩] := by
    simp [runGateway, generateContent, generateContentTry, hmiss, h₂, hc₂]
  refine ⟨e₁, e₂, ?_, ?_⟩
  · rw [e₁, e₂]
    simp
  · intro h
    exact formatted_ne_hashData prompt ct pv (hinj h)

/-- Witness for C8: two distinct templates over the same backend, an empty
cache and the request `("Write about Bali", blog, anthropic)`. -/
theorem fingerprint_template_independent_witness :
    (runGateway basePrompt (fun _ _ => ⟨some ⟨some "text"⟩, none⟩) id
        "Write about Bali" ContentType.blog AIProvider.anthropic []).state =
      [⟨generatePromptHash id "Write about Bali" ContentType.blog AIProvider.anthropic,
        "Write about Bali", ContentType.blog, AIProvider.anthropic, "text", 1⟩] ∧
    (runGateway (fun _ => "You are a travel copywriter.")
        (fun _ _ => ⟨some ⟨some "text"⟩, none⟩) id
        "Write about Bali" ContentType.blog AIProvider.anthropic []).state =
      [⟨generatePromptHash id "Write about Bali" ContentType.blog AIProvider.anthropic,
        "Write about Bali", ContentType.blog, AIProvider.anthropic, "text", 1⟩] ∧
    generatePromptHash id "Write about Bali" ContentType.blog AIProvider.anthropic ≠
      id (formattedPromptWith basePrompt ContentType.blog "Write about Bali") := by
  have h := fingerprint_template_independent basePrompt
    (fun _ => "You are a travel copywriter.") (fun _ _ => ⟨some ⟨some "text"⟩, none⟩)
    id (fun _ _ hx => hx) "Write about Bali" ContentType.blog AIProvider.anthropic []
    "text" "text" rfl rfl rfl (by decide) (by decide)
  exact ⟨by simpa using h.1, by simpa using h.2.1, h.2.2.2⟩

/-! ## C10: no empty response is ever cached -/

theorem generateContent_state (invoke : GenRequest → InvokeResponse)
    (digest : String → String) (prompt : String) (ct : ContentType) (pv : AIProvider)
    (st : CacheState) :
    (generateContent invoke digest prompt ct pv st).state =
      (generateContentTry invoke digest prompt ct pv st).state := by
  rw [generateContent]
  cases h : (generateContentTry invoke digest prompt ct pv st).result <;> simp [h]

/-- C10. On every `generateContent` call, each row of the resulting cache
state either carries a non-empty `response` or inherits its `response` from a
row already present before the call; and when the provider invocation
returns success (`error` null) but with missing or empty `content`,
`generateContent` throws (`'No content received from the AI provider'`,
rewrapped by the catch) and writes no cache row at all. -/
theorem no_empty_response_cached
    (invoke : GenRequest → InvokeResponse) (digest : String → String)
    (prompt : String) (ct : ContentType) (pv : AIProvider) (st : CacheState) :
    (∀ row ∈ (generateContent invoke digest prompt ct pv st).state,
      row.response ≠ "" ∨ ∃ r₀ ∈ st, row.response = r₀.response) ∧
    ((invoke ⟨prompt, ct, pv⟩).error = none →
      (Option.bind (invoke ⟨prompt, ct, pv⟩).data GenPayload.content = none ∨
       Option.bind (invoke ⟨prompt, ct, pv⟩).data GenPayload.content = some "") →
      selectSingle st (generatePromptHash digest prompt ct pv) = none →
      generateContent invoke digest prompt ct pv st =
        ⟨.error "Failed to generate content. Please try again.", st, 1⟩) := by
  constructor
  · intro row hrow
    rw [generateContent_state] at hrow
    cases hsel : selectSingle st (generatePromptHash digest prompt ct pv) with
    | some cached =>
      simp only [generateContentTry, hsel] at hrow
      simp only [bumpUsage, List.mem_map] at hrow
      obtain ⟨r₀, hr₀, hfr⟩ := hrow
      refine Or.inr ⟨r₀, hr₀, ?_⟩
      by_cases hh : r₀.prompt_hash = generatePromptHash digest prompt ct pv
      · rw [if_pos hh] at hfr
        rw [← hfr]
      · rw [if_neg hh] at hfr
        rw [← hfr]
    | none =>
      simp only [generateContentTry, hsel] at hrow
      cases herr : (invoke ⟨prompt, ct, pv⟩).error with
      | some e =>
        simp only [herr] at hrow
        exact Or.inr ⟨row, hrow, rfl⟩
      | none =>
        simp only [herr] at hrow
        cases hdata : (invoke ⟨prompt, ct, pv⟩).data with
        | none =>
          simp only [hdata] at hrow
          exact Or.inr ⟨row, hrow, rfl⟩
        | some payload =>
          simp only [hdata] at hrow
          cases hcont : payload.content with
          | none =>
            simp only [hcont] at hrow
            exact Or.inr ⟨row, hrow, rfl⟩
          | some c =>
            simp only [hcont] at hrow
            by_cases hcc : c = ""
            · rw [if_pos hcc] at hrow
              exact Or.inr ⟨row, hrow, rfl⟩
            · rw [if_neg hcc] at hrow
              simp only [List.mem_append, List.mem_singleton] at hrow
              rcases hrow with hrow | hrow
              · exact Or.inr ⟨row, hrow, rfl⟩
              · left
                rw [hrow]
                exact hcc
  · intro herr hbad hnone
    have htry : generateContentTry invoke digest prompt ct pv st =
        ⟨.error "No content received from the AI provider", st, 1⟩ := by
      cases hdata : (invoke ⟨prompt, ct, pv⟩).data with
      | none => simp [generateContentTry, hnone, herr, hdata]
      | some payload =>
        rw [hdata, Option.some_bind] at hbad
        cases hcont : payload.content with
        | none => simp [generateContentTry, hnone, herr, hdata, hcont]
        | some c =>
          rw [hcont] at hbad
          rcases hbad with hbad | hbad
          · exact absurd hbad (Option.some_ne_none c)
          · have hc : c = "" := Option.some_injective _ hbad
            simp [generateContentTry, hnone, herr, hdata, hcont, hc]
    simp [generateContent, htry]

/-- Witness for C10: a provider invocation returning success with empty
content is rejected and caches nothing. -/
theorem no_empty_response_cached_witness :
    generateContent (fun _ => ⟨some ⟨some ""⟩, none⟩) id "p" ContentType.email
        AIProvider.cohere [] =
      ⟨.error "Failed to generate content. Please try again.", [], 1⟩ :=
  (no_empty_response_cached (fun _ => ⟨some ⟨some ""⟩, none⟩) id "p" ContentType.email
    AIProvider.cohere []).2 rfl (Or.inr rfl) rfl

/-! ## The edge function's rate limiter

`requestCounts` is a process-wide `Map<string, { count, timestamp }>`,
modelled as a function from client identifiers to optional entries. JavaScript
computes `now - timestamp` on numbers; in every reachable use `now` is not
earlier than the stored timestamp, and for `now < timestamp` both the
JavaScript negative difference and the truncated natural subtraction fall on
the same (non-reset) side of the window test. -/

def RATE_LIMIT_WINDOW : Nat := 60000

def MAX_REQUESTS_PER_WINDOW : Nat := 10

/-- A `requestCounts` map entry: `{ count, timestamp }`. -/
structure ClientData where
  count : Nat
  timestamp : Nat
  deriving DecidableEq, Repr

abbrev RequestCounts := String → Option ClientData

/-- `checkRateLimit(clientIp)`: admit and reset the window on a first-seen
client or an elapsed window; reject once the count has reached the limit;
otherwise increment the count in place and admit. Returns the boolean
together with the updated map. -/
def checkRateLimit (clientIp : String) (now : Nat) (rc : RequestCounts) :
    Bool × RequestCounts :=
  match rc clientIp with
  | none => (true, fun k => if k = clientIp then some ⟨1, now⟩ else rc k)
  | some cd =>
    if RATE_LIMIT_WINDOW < now - cd.timestamp then
      (true, fun k => if k = clientIp then some ⟨1, now⟩ else rc k)
    else if MAX_REQUESTS_PER_WINDOW ≤ cd.count then
      (false, rc)
    else
      (true, fun k => if k = clientIp then some ⟨cd.count + 1, cd.timestamp⟩ else rc k)

/-- A sequence of `checkRateLimit` calls from one client at the given
timestamps, collecting the returned booleans. -/
def processCalls (clientIp : String) : List Nat → RequestCounts → List Bool × RequestCounts
  | [], rc => ([], rc)
  | t :: ts, rc =>
    let r := checkRateLimit clientIp t rc
    let rest := processCalls clientIp ts r.2
    (r.1 :: rest.1, rest.2)

theorem checkRateLimit_increment (ip : String) (now : Nat) (rc : RequestCounts)
    (c t0 : Nat) (h : rc ip = some ⟨c, t0⟩) (hwin : now - t0 ≤ RATE_LIMIT_WINDOW)
    (hc : c < MAX_REQUESTS_PER_WINDOW) :
    checkRateLimit ip now rc =
      (true, fun k => if k = ip then some ⟨c + 1, t0⟩ else rc k) := by
  simp [checkRateLimit, h, Nat.not_lt.mpr hwin, Nat.not_le.mpr hc]

theorem checkRateLimit_reject (ip : String) (now : Nat) (rc : RequestCounts)
    (c t0 : Nat) (h : rc ip = some ⟨c, t0⟩) (hwin : now - t0 ≤ RATE_LIMIT_WINDOW)
    (hc : MAX_REQUESTS_PER_WINDOW ≤ c) :
    checkRateLimit ip now rc = (false, rc) := by
  simp [checkRateLimit, h, Nat.not_lt.mpr hwin, hc]

theorem checkRateLimit_reset (ip : String) (now : Nat) (rc : RequestCounts)
    (c t0 : Nat) (h : rc ip = some ⟨c, t0⟩) (hwin : RATE_LIMIT_WINDOW < now - t0) :
    checkRateLimit ip now rc =
      (true, fun k => if k = ip then some ⟨1, now⟩ else rc k) := by
  simp [checkRateLimit, h, hwin]

theorem processCalls_append (ip : String) (xs ys : List Nat) (rc : RequestCounts) :
    processCalls ip (xs ++ ys) rc =
      ((processCalls ip xs rc).1 ++ (processCalls ip ys (processCalls ip xs rc).2).1,
        (processCalls ip ys (processCalls ip xs rc).2).2) := by
  induction xs generalizing rc with
  | nil => simp [processCalls]
  | cons x xs ih => simp [processCalls, ih]

theorem processCalls_within (ip : String) (ts : List Nat) :
    ∀ (rc : RequestCounts) (c t0 : Nat), rc ip = some ⟨c, t0⟩ →
      (∀ s ∈ ts, s - t0 ≤ RATE_LIMIT_WINDOW) →
      c + ts.length ≤ MAX_REQUESTS_PER_WINDOW →
      (processCalls ip ts rc).1 = List.replicate ts.length true ∧
      (processCalls ip ts rc).2 ip = some ⟨c + ts.length, t0⟩ := by
  induction ts with
  | nil =>
    intro rc c t0 h _ _
    simp [processCalls, h]
  | cons s ts ih =>
    intro rc c t0 h hwin hcount
    have hlen : (s :: ts).length = ts.length + 1 := rfl
    have hstep := checkRateLimit_increment ip s rc c t0 h
      (hwin s (List.mem_cons_self s ts)) (by rw [hlen] at hcount; omega)
    have h' : (fun k => if k = ip then some (ClientData.mk (c + 1) t0) else rc k) ip =
        some ⟨c + 1, t0⟩ := by simp
    obtain ⟨h1, h2⟩ := ih (fun k => if k = ip then some ⟨c + 1, t0⟩ else rc k) (c + 1) t0 h'
      (fun x hx => hwin x (List.mem_cons_of_mem s hx))
      (by rw [hlen] at hcount; omega)
    have hsum : c + 1 + ts.length = c + (ts.length + 1) := by omega
    rw [hsum] at h2
    simp [processCalls, hstep, h1, h2, List.replicate_succ]

/-- C3. Rate limiter admission: with the 60-second window and limit 10, a
client's first 10 calls whose timestamps lie within one window of the first
call all return `true`, the 11th such call returns `false` (without
disturbing the map), and the first call made after the window has elapsed
returns `true` again, resetting the client's entry to count 1 with a fresh
start timestamp. Rejections are returned as `false` by the total function
`checkRateLimit`; nothing is thrown. -/
theorem rate_limiter_admission (ip : String) (t : Fin 11 → Nat) (t' : Nat)
    (hwin : ∀ i, t i - t 0 ≤ RATE_LIMIT_WINDOW)
    (hafter : RATE_LIMIT_WINDOW < t' - t 0) :
    (processCalls ip [t 0, t 1, t 2, t 3, t 4, t 5, t 6, t 7, t 8, t 9, t 10]
        (fun _ => none)).1 =
      [true, true, true, true, true, true, true, true, true, true, false] ∧
    (checkRateLimit ip t'
        (processCalls ip [t 0, t 1, t 2, t 3, t 4, t 5, t 6, t 7, t 8, t 9, t 10]
          (fun _ => none)).2).1 = true ∧
    (checkRateLimit ip t'
        (processCalls ip [t 0, t 1, t 2, t 3, t 4, t 5, t 6, t 7, t 8, t 9, t 10]
          (fun _ => none)).2).2 ip = some ⟨1, t'⟩ := by
  have h0 : checkRateLimit ip (t 0) (fun _ => none) =
      (true, fun k => if k = ip then some ⟨1, t 0⟩ else none) := rfl
  have hsingle0 : processCalls ip [t 0] (fun _ => none) =
      ([true], fun k => if k = ip then some ⟨1, t 0⟩ else none) := by
    simp [processCalls, h0]
  have hA : (fun k => if k = ip then some (ClientData.mk 1 (t 0)) else none) ip =
      some ⟨1, t 0⟩ := by simp
  obtain ⟨hm1, hm2⟩ := processCalls_within ip [t 1, t 2, t 3, t 4, t 5, t 6, t 7, t 8, t 9]
    (fun k => if k = ip then some ⟨1, t 0⟩ else none) 1 (t 0) hA
    (by
      intro s hs
      simp only [List.mem_cons, List.not_mem_nil, or_false] at hs
      rcases hs with rfl | rfl | rfl | rfl | rfl | rfl | rfl | rfl | rfl <;> exact hwin _)
    (by simp [MAX_REQUESTS_PER_WINDOW])
  have hm2' : (processCalls ip [t 1, t 2, t 3, t 4, t 5, t 6, t 7, t 8, t 9]
      (fun k => if k = ip then some ⟨1, t 0⟩ else none)).2 ip = some ⟨10, t 0⟩ := by
    simpa using hm2
  have hrej := checkRateLimit_reject ip (t 10)
    (processCalls ip [t 1, t 2, t 3, t 4, t 5, t 6, t 7, t 8, t 9]
      (fun k => if k = ip then some ⟨1, t 0⟩ else none)).2 10 (t 0)
    hm2' (hwin 10) (by simp [MAX_REQUESTS_PER_WINDOW])
  have hm1' : (processCalls ip [t 1, t 2, t 3, t 4, t 5, t 6, t 7, t 8, t 9]
      (fun k => if k = ip then some ⟨1, t 0⟩ else none)).1 =
      [true, true, true, true, true, true, true, true, true] := by
    rw [hm1]
    rfl
  have hsingle10 : processCalls ip [t 10]
      (processCalls ip [t 1, t 2, t 3, t 4, t 5, t 6, t 7, t 8, t 9]
        (fun k => if k = ip then some ⟨1, t 0⟩ else none)).2 =
      ([false], (processCalls ip [t 1, t 2, t 3, t 4, t 5, t 6, t 7, t 8, t 9]
        (fun k => if k = ip then some ⟨1, t 0⟩ else none)).2) := by
    have e : processCalls ip [t 10]
        (processCalls ip [t 1, t 2, t 3, t 4, t 5, t 6, t 7, t 8, t 9]
          (fun k => if k = ip then some ⟨1, t 0⟩ else none)).2 =
        ([(checkRateLimit ip (t 10)
            (processCalls ip [t 1, t 2, t 3, t 4, t 5, t 6, t 7, t 8, t 9]
              (fun k => if k = ip then some ⟨1, t 0⟩ else none)).2).1],
          (checkRateLimit ip (t 10)
            (processCalls ip [t 1, t 2, t 3, t 4, t 5, t 6, t 7, t 8, t 9]
              (fun k => if k = ip then some ⟨1, t 0⟩ else none)).2).2) := rfl
    rw [e, hrej]
  have hres := checkRateLimit_reset ip t'
    (processCalls ip [t 1, t 2, t 3, t 4, t 5, t 6, t 7, t 8, t 9]
      (fun k => if k = ip then some ⟨1, t 0⟩ else none)).2 10 (t 0)
    hm2' hafter
  have hsplit : processCalls ip [t 0, t 1, t 2, t 3, t 4, t 5, t 6, t 7, t 8, t 9, t 10]
      (fun _ => none) =
      processCalls ip ([t 0] ++ ([t 1, t 2, t 3, t 4, t 5, t 6, t 7, t 8, t 9] ++ [t 10]))
        (fun _ => none) := rfl
  have hPC : processCalls ip [t 0, t 1, t 2, t 3, t 4, t 5, t 6, t 7, t 8, t 9, t 10]
      (fun _ => none) =
      ([true, true, true, true, true, true, true, true, true, true, false],
        (processCalls ip [t 1, t 2, t 3, t 4, t 5, t 6, t 7, t 8, t 9]
          (fun k => if k = ip then some ⟨1, t 0⟩ else none)).2) := by
    rw [hsplit, processCalls_append, hsingle0]
    dsimp only
    rw [processCalls_append, hm1', hsingle10]
    rfl
  rw [hPC, hres]
  refine ⟨rfl, rfl, ?_⟩
  simp

/-- Witness for C3: eleven calls at time 0 and a twelfth at 60001 ms. -/
theorem rate_limiter_admission_witness :
    (processCalls "client" [0, 0, 0, 0, 0, 0, 0, 0, 0, 0, 0] (fun _ => none)).1 =
      [true, true, true, true, true, true, true, true, true, true, false] ∧
    (checkRateLimit "client" 60001
        (processCalls "client" [0, 0, 0, 0, 0, 0, 0, 0, 0, 0, 0] (fun _ => none)).2).1 =
      true ∧
    (checkRateLimit "client" 60001
        (processCalls "client" [0, 0, 0, 0, 0, 0, 0, 0, 0, 0, 0] (fun _ => none)).2).2
        "client" = some ⟨1, 60001⟩ :=
  rate_limiter_admission "client" (fun _ => 0) 60001 (by intro i; simp) (by decide)

/-- C9. Strict window boundary: for a client whose current window started at
`t0`, a call arriving at or before `t0 + 60000` — in particular exactly at
`t0 + 60000` — is still governed by the old window: it is rejected when the
stored count has reached the limit and otherwise increments that count,
keeping the old start timestamp. A fresh window with count 1 and a new start
timestamp arises exactly for calls arriving strictly later than
`t0 + 60000`. -/
theorem rate_window_boundary (ip : String) (rc : RequestCounts) (c t0 : Nat)
    (h : rc ip = some ⟨c, t0⟩) :
    (checkRateLimit ip (t0 + RATE_LIMIT_WINDOW) rc =
      if MAX_REQUESTS_PER_WINDOW ≤ c then (false, rc)
      else (true, fun k => if k = ip then some ⟨c + 1, t0⟩ else rc k)) ∧
    (∀ s, s ≤ t0 + RATE_LIMIT_WINDOW →
      checkRateLimit ip s rc =
        if MAX_REQUESTS_PER_WINDOW ≤ c then (false, rc)
        else (true, fun k => if k = ip then some ⟨c + 1, t0⟩ else rc k)) ∧
    (∀ s, t0 + RATE_LIMIT_WINDOW < s →
      checkRateLimit ip s rc = (true, fun k => if k = ip then some ⟨1, s⟩ else rc k)) := by
  have hold : ∀ s, s ≤ t0 + RATE_LIMIT_WINDOW →
      checkRateLimit ip s rc =
        if MAX_REQUESTS_PER_WINDOW ≤ c then (false, rc)
        else (true, fun k => if k = ip then some ⟨c + 1, t0⟩ else rc k) := by
    intro s hs
    have hwin : s - t0 ≤ RATE_LIMIT_WINDOW := by omega
    by_cases hc : MAX_REQUESTS_PER_WINDOW ≤ c
    · rw [if_pos hc]
      exact checkRateLimit_reject ip s rc c t0 h hwin hc
    · rw [if_neg hc]
      exact checkRateLimit_increment ip s rc c t0 h hwin (Nat.not_le.mp hc)
  refine ⟨hold _ le_rfl, hold, ?_⟩
  intro s hs
  exact checkRateLimit_reset ip s rc c t0 h (by omega)

/-- Witness for C9: a full window (count 10) started at 0 still rejects at
exactly 60000 ms and resets at 60001 ms. -/
theorem rate_window_boundary_witness :
    checkRateLimit "a" 60000 (fun k => if k = "a" then some ⟨10, 0⟩ else none) =
      (false, fun k => if k = "a" then some ⟨10, 0⟩ else none) ∧
    (checkRateLimit "a" 60001 (fun k => if k = "a" then some ⟨10, 0⟩ else none)).2 "a" =
      some ⟨1, 60001⟩ := by
  have h := rate_window_boundary "a" (fun k => if k = "a" then some ⟨10, 0⟩ else none)
    10 0 (by simp)
  refine ⟨?_, ?_⟩
  · have h1 := h.1
    rw [if_pos (by simp [MAX_REQUESTS_PER_WINDOW] : MAX_REQUESTS_PER_WINDOW ≤ 10)] at h1
    simpa using h1
  · rw [h.2.2 60001 (by simp [RATE_LIMIT_WINDOW])]
    simp

/-! ## The concurrency-bounded queue -/

def MAX_CONCURRENT_REQUESTS : Nat := 3

/-- An observable event of `enqueueRequest`: admission of a request key into
the in-flight map (`queue.set`), or completion of an in-flight operation
(the `.finally` callback's `queue.delete`). -/
inductive QEvent
  | acquire (key : String)
  | complete (key : String)
  deriving DecidableEq, Repr

/-- One step of the queue's in-flight map. `enqueueRequest` re-checks
`queue.size >= MAX_CONCURRENT_REQUESTS` after every wake-up of its waiting
loop, and no suspension point separates the final size check from
`queue.set` on the single-threaded event loop, so admission happens
atomically from a state with fewer than `MAX_CONCURRENT_REQUESTS` entries;
request keys (client identity plus a millisecond timestamp) are taken
distinct, so an admitted key is fresh. A completed operation removes its own
key whether it succeeded or failed. -/
inductive QStep : QEvent → Finset String → Finset String → Prop
  | acquire (k : String) (s : Finset String) :
      s.card < MAX_CONCURRENT_REQUESTS → k ∉ s → QStep (.acquire k) s (insert k s)
  | complete (k : String) (s : Finset String) :
      k ∈ s → QStep (.complete k) s (s.erase k)

/-- The in-flight maps reachable from the initially empty `queue`. -/
inductive QReach : Finset String → Prop
  | init : QReach ∅
  | step {s s' : Finset String} {e : QEvent} : QReach s → QStep e s s' → QReach s'

/-- C2. Concurrency bound: in every state of the in-flight map reachable
from the empty queue under `enqueueRequest`'s admission and completion
steps, at most `MAX_CONCURRENT_REQUESTS = 3` operations are in flight
simultaneously — and no admission step at all exists out of a state already
holding 3 or more in-flight operations: such a caller stays suspended until
some in-flight operation completes. -/
theorem queue_concurrency_bound :
    (∀ s : Finset String, QReach s → s.card ≤ MAX_CONCURRENT_REQUESTS) ∧
    (∀ (k : String) (s s' : Finset String), MAX_CONCURRENT_REQUESTS ≤ s.card →
      ¬QStep (.acquire k) s s') := by
  constructor
  · intro s hs
    induction hs with
    | init => simp
    | step hr hstep ih =>
      cases hstep with
      | acquire k s hlt hk =>
        rw [Finset.card_insert_of_not_mem hk]
        omega
      | complete k s hk =>
        exact le_trans Finset.card_erase_le ih
  · intro k s s' hge hstep
    cases hstep with
    | acquire _ _ hlt _ => omega

/-- Witness for C2: the empty queue is reachable and within the bound, and no
admission step leaves a full three-element in-flight set. -/
theorem queue_concurrency_bound_witness :
    (∅ : Finset String).card ≤ MAX_CONCURRENT_REQUESTS ∧
    ¬QStep (QEvent.acquire "k") {"a", "b", "c"} (insert "k" {"a", "b", "c"}) :=
  ⟨queue_concurrency_bound.1 ∅ QReach.init,
   queue_concurrency_bound.2 "k" {"a", "b", "c"} _ (by decide)⟩

/-! ## `getBestProvider` and the cross-check orchestrator -/

/-- `getBestProvider`: the fixed content-type to provider mapping. (The
source's `default` arm would also return `'anthropic'`, but the four labelled
cases already cover the whole `ContentType` union.) -/
def getBestProvider : ContentType → AIProvider
  | .blog => .anthropic
  | .social => .gemini
  | .email => .cohere
  | .description => .mistral

/-- The structured payload of the `analyze-content` capability. -/
structure Analysis where
  tone : String
  perspective : String
  uniqueInsights : List String
  strengths : List String
  recommendedSections : List String
  deriving DecidableEq, Repr

/-- An entry of `crossCheckContent`'s result list. -/
structure CrossCheckResult where
  provider : AIProvider
  content : String
  analysis : Analysis
  deriving DecidableEq, Repr

/-- The list `['mistral', 'gemini', 'anthropic', 'cohere']` the cross-check
`for` loop iterates over, in source order. -/
def providersList : List AIProvider :=
  [.mistral, .gemini, .anthropic, .cohere]

/-- The body of `crossCheckContent`'s `for` loop over a provider list.
Generation (`await generateContent(...)`, embedded statefully above) and the
`analyze-content` invocation are abstracted as the per-provider oracles
`gen` and `analyze`: a `.error` outcome of either models a thrown error,
which the loop's `catch` swallows for that provider, and `.ok none` models
the invocation resolving without analysis data (`analysisData` falsy),
which skips the `results.push`. -/
def crossCheckLoop (gen : String → ContentType → AIProvider → Except String String)
    (analyze : String → AIProvider → Except String (Option Analysis))
    (prompt : String) (ct : ContentType) : List AIProvider → List CrossCheckResult
  | [] => []
  | p :: rest =>
    if p = getBestProvider ct then crossCheckLoop gen analyze prompt ct rest
    else
      match gen prompt ct p with
      | .error _ => crossCheckLoop gen analyze prompt ct rest
      | .ok content =>
        match analyze content p with
        | .error _ => crossCheckLoop gen analyze prompt ct rest
        | .ok none => crossCheckLoop gen analyze prompt ct rest
        | .ok (some a) => ⟨p, content, a⟩ :: crossCheckLoop gen analyze prompt ct rest

/-- `crossCheckContent(prompt, contentType, primaryContent)`: the loop over
the fixed provider list. (`primaryContent` is accepted and left unused, as
in the source.) -/
def crossCheckContent (gen : String → ContentType → AIProvider → Except String String)
    (analyze : String → AIProvider → Except String (Option Analysis))
    (prompt : String) (ct : ContentType) (primaryContent : String) :
    List CrossCheckResult :=
  crossCheckLoop gen analyze prompt ct providersList

/-- The non-primary providers of a content type, in fan-out order. -/
def crossCheckProviders (ct : ContentType) : List AIProvider :=
  providersList.filter fun p => p ≠ getBestProvider ct

/-- A provider failing during cross-check: its generation throws, or its
generation succeeds and its analysis invocation throws. -/
def providerFails (gen : String → ContentType → AIProvider → Except String String)
    (analyze : String → AIProvider → Except String (Option Analysis))
    (prompt : String) (ct : ContentType) (p : AIProvider) : Prop :=
  (∃ e, gen prompt ct p = .error e) ∨
  (∃ c e, gen prompt ct p = .ok c ∧ analyze c p = .error e)

/-- Per-provider outcome of one loop iteration, as an optional result. -/
def crossCheckStep (gen : String → ContentType → AIProvider → Except String String)
    (analyze : String → AIProvider → Except String (Option Analysis))
    (prompt : String) (ct : ContentType) (p : AIProvider) : Option CrossCheckResult :=
  if p = getBestProvider ct then none
  else
    match gen prompt ct p with
    | .error _ => none
    | .ok content =>
      match analyze content p with
      | .ok (some a) => some ⟨p, content, a⟩
      | _ => none

theorem crossCheckLoop_eq_filterMap
    (gen : String → ContentType → AIProvider → Except String String)
    (analyze : String → AIProvider → Except String (Option Analysis))
    (prompt : String) (ct : ContentType) (l : List AIProvider) :
    crossCheckLoop gen analyze prompt ct l =
      l.filterMap (crossCheckStep gen analyze prompt ct) := by
  induction l with
  | nil => rfl
  | cons p rest ih =>
    by_cases hp : p = getBestProvider ct
    · simp only [crossCheckLoop, if_pos hp, List.filterMap_cons, crossCheckStep, ih]
    · simp only [crossCheckLoop, if_neg hp, List.filterMap_cons, crossCheckStep]
      cases hg : gen prompt ct p with
      | error e => simp [hg, ih]
      | ok content =>
        cases ha : analyze content p with
        | error e => simp [hg, ha, ih]
        | ok oa =>
          cases oa with
          | none => simp [hg, ha, ih]
          | some a => simp [hg, ha, ih]

theorem crossCheckLoop_sublist
    (gen : String → ContentType → AIProvider → Except String String)
    (analyze : String → AIProvider → Except String (Option Analysis))
    (prompt : String) (ct : ContentType) (l : List AIProvider) :
    List.Sublist ((crossCheckLoop gen analyze prompt ct l).map fun r => r.provider)
      (l.filter fun p => p ≠ getBestProvider ct) := by
  induction l with
  | nil => simp [crossCheckLoop]
  | cons p rest ih =>
    simp only [crossCheckLoop]
    by_cases hp : p = getBestProvider ct
    · rw [if_pos hp, List.filter_cons_of_neg (by simp [hp])]
      exact ih
    · rw [if_neg hp, List.filter_cons_of_pos (by simp [hp])]
      cases hg : gen prompt ct p with
      | error e => exact List.Sublist.cons p ih
      | ok content =>
        dsimp only
        cases ha : analyze content p with
        | error e => exact List.Sublist.cons p ih
        | ok oa =>
          cases oa with
          | none => exact List.Sublist.cons p ih
          | some a =>
            simp only [List.map_cons]
            exact List.Sublist.cons₂ p ih

/-- C5. Primary-provider exclusion: for every prompt, content type and oracle
behaviour, no entry of `crossCheckContent`'s result list carries the primary
provider `getBestProvider ct`; the providers that contribute results form a
sublist of the fixed iteration order `mistral, gemini, anthropic, cohere`
with the primary filtered out. -/
theorem crossCheck_excludes_primary
    (gen : String → ContentType → AIProvider → Except String String)
    (analyze : String → AIProvider → Except String (Option Analysis))
    (prompt primaryContent : String) (ct : ContentType) :
    (∀ r ∈ crossCheckContent gen analyze prompt ct primaryContent,
      r.provider ≠ getBestProvider ct) ∧
    List.Sublist
      ((crossCheckContent gen analyze prompt ct primaryContent).map fun r => r.provider)
      (providersList.filter fun p => p ≠ getBestProvider ct) ∧
    providersList = [.mistral, .gemini, .anthropic, .cohere] := by
  refine ⟨?_, crossCheckLoop_sublist gen analyze prompt ct providersList, rfl⟩
  intro r hr
  have hmem : r.provider ∈
      (crossCheckContent gen analyze prompt ct primaryContent).map fun r => r.provider :=
    List.mem_map_of_mem _ hr
  have hfil := (crossCheckLoop_sublist gen analyze prompt ct providersList).subset hmem
  have hp := List.of_mem_filter hfil
  simpa using hp

/-- Witness for C5: with every generation and analysis succeeding, the blog
fan-out produces a mistral entry, and mistral is not blog's primary. -/
theorem crossCheck_excludes_primary_witness :
    CrossCheckResult.mk AIProvider.mistral "x" ⟨"t", "view", [], [], []⟩ ∈
      crossCheckContent (fun _ _ _ => .ok "x")
        (fun _ _ => .ok (some ⟨"t", "view", [], [], []⟩)) "Bali" ContentType.blog
        "primary" ∧
    AIProvider.mistral ≠ getBestProvider ContentType.blog := by
  have hm : CrossCheckResult.mk AIProvider.mistral "x" ⟨"t", "view", [], [], []⟩ ∈
      crossCheckContent (fun _ _ _ => .ok "x")
        (fun _ _ => .ok (some ⟨"t", "view", [], [], []⟩)) "Bali" ContentType.blog
        "primary" := by decide
  exact ⟨hm, (crossCheck_excludes_primary (fun _ _ _ => .ok "x")
    (fun _ _ => .ok (some ⟨"t", "view", [], [], []⟩)) "Bali" "primary"
    ContentType.blog).1 _ hm⟩

/-- C6. Partial-failure tolerance: when exactly one of the three non-primary
providers fails during cross-check (its generation or its analysis throws)
and the other two succeed with analysis data, `crossCheckContent` — a total
function, so no exception escapes the top-level call — returns exactly the
two successful providers' results in fan-out order: the list has length 2,
its providers are the non-primary providers other than the failing one, and
each entry carries its provider's generated content and analysis. -/
theorem crossCheck_partial_failure
    (gen : String → ContentType → AIProvider → Except String String)
    (analyze : String → AIProvider → Except String (Option Analysis))
    (prompt primaryContent : String) (ct : ContentType) (pf : AIProvider)
    (hpf : pf ∈ crossCheckProviders ct)
    (hfail : providerFails gen analyze prompt ct pf)
    (hsucc : ∀ p ∈ crossCheckProviders ct, p ≠ pf →
      ∃ c a, gen prompt ct p = .ok c ∧ analyze c p = .ok (some a)) :
    (crossCheckContent gen analyze prompt ct primaryContent).length = 2 ∧
    ((crossCheckContent gen analyze prompt ct primaryContent).map fun r => r.provider) =
      ((crossCheckProviders ct).filter fun p => p ≠ pf) ∧
    ∀ r ∈ crossCheckContent gen analyze prompt ct primaryContent,
      gen prompt ct r.provider = .ok r.content ∧
      analyze r.content r.provider = .ok (some r.analysis) := by
  cases ct with
  | blog =>
    have hcp : crossCheckProviders ContentType.blog = [AIProvider.mistral, AIProvider.gemini, AIProvider.cohere] := by decide
    rw [hcp] at hpf
    simp only [List.mem_cons, List.not_mem_nil, or_false] at hpf
    rcases hpf with rfl | rfl | rfl
    · obtain ⟨c₁, a₁, hg₁, ha₁⟩ := hsucc AIProvider.gemini (by decide) (by decide)
      obtain ⟨c₂, a₂, hg₂, ha₂⟩ := hsucc AIProvider.cohere (by decide) (by decide)
      rcases hfail with ⟨e, hg⟩ | ⟨c0, e, hg, ha⟩
      · refine ⟨?_, ?_, ?_⟩ <;>
          simp [crossCheckContent, crossCheckLoop_eq_filterMap, providersList,
            crossCheckStep, getBestProvider, hcp, hg₁, ha₁, hg₂, ha₂, hg]
      · refine ⟨?_, ?_, ?_⟩ <;>
          simp [crossCheckContent, crossCheckLoop_eq_filterMap, providersList,
            crossCheckStep, getBestProvider, hcp, hg₁, ha₁, hg₂, ha₂, hg, ha]
    · obtain ⟨c₁, a₁, hg₁, ha₁⟩ := hsucc AIProvider.mistral (by decide) (by decide)
      obtain ⟨c₂, a₂, hg₂, ha₂⟩ := hsucc AIProvider.cohere (by decide) (by decide)
      rcases hfail with ⟨e, hg⟩ | ⟨c0, e, hg, ha⟩
      · refine ⟨?_, ?_, ?_⟩ <;>
          simp [crossCheckContent, crossCheckLoop_eq_filterMap, providersList,
            crossCheckStep, getBestProvider, hcp, hg₁, ha₁, hg₂, ha₂, hg]
      · refine ⟨?_, ?_, ?_⟩ <;>
          simp [crossCheckContent, crossCheckLoop_eq_filterMap, providersList,
            crossCheckStep, getBestProvider, hcp, hg₁, ha₁, hg₂, ha₂, hg, ha]
    · obtain ⟨c₁, a₁, hg₁, ha₁⟩ := hsucc AIProvider.mistral (by decide) (by decide)
      obtain ⟨c₂, a₂, hg₂, ha₂⟩ := hsucc AIProvider.gemini (by decide) (by decide)
      rcases hfail with ⟨e, hg⟩ | ⟨c0, e, hg, ha⟩
      · refine ⟨?_, ?_, ?_⟩ <;>
          simp [crossCheckContent, crossCheckLoop_eq_filterMap, providersList,
            crossCheckStep, getBestProvider, hcp, hg₁, ha₁, hg₂, ha₂, hg]
      · refine ⟨?_, ?_, ?_⟩ <;>
          simp [crossCheckContent, crossCheckLoop_eq_filterMap, providersList,
            crossCheckStep, getBestProvider, hcp, hg₁, ha₁, hg₂, ha₂, hg, ha]
  | social =>
    have hcp : crossCheckProviders ContentType.social = [AIProvider.mistral, AIProvider.anthropic, AIProvider.cohere] := by decide
    rw [hcp] at hpf
    simp only [List.mem_cons, List.not_mem_nil, or_false] at hpf
    rcases hpf with rfl | rfl | rfl
    · obtain ⟨c₁, a₁, hg₁, ha₁⟩ := hsucc AIProvider.anthropic (by decide) (by decide)
      obtain ⟨c₂, a₂, hg₂, ha₂⟩ := hsucc AIProvider.cohere (by decide) (by decide)
      rcases hfail with ⟨e, hg⟩ | ⟨c0, e, hg, ha⟩
      · refine ⟨?_, ?_, ?_⟩ <;>
          simp [crossCheckContent, crossCheckLoop_eq_filterMap, providersList,
            crossCheckStep, getBestProvider, hcp, hg₁, ha₁, hg₂, ha₂, hg]
      · refine ⟨?_, ?_, ?_⟩ <;>
          simp [crossCheckContent, crossCheckLoop_eq_filterMap, providersList,
            crossCheckStep, getBestProvider, hcp, hg₁, ha₁, hg₂, ha₂, hg, ha]
    · obtain ⟨c₁, a₁, hg₁, ha₁⟩ := hsucc AIProvider.mistral (by decide) (by decide)
      obtain ⟨c₂, a₂, hg₂, ha₂⟩ := hsucc AIProvider.cohere (by decide) (by decide)
      rcases hfail with ⟨e, hg⟩ | ⟨c0, e, hg, ha⟩
      · refine ⟨?_, ?_, ?_⟩ <;>
          simp [crossCheckContent, crossCheckLoop_eq_filterMap, providersList,
            crossCheckStep, getBestProvider, hcp, hg₁, ha₁, hg₂, ha₂, hg]
      · refine ⟨?_, ?_, ?_⟩ <;>
          simp [crossCheckContent, crossCheckLoop_eq_filterMap, providersList,
            crossCheckStep, getBestProvider, hcp, hg₁, ha₁, hg₂, ha₂, hg, ha]
    · obtain ⟨c₁, a₁, hg₁, ha₁⟩ := hsucc AIProvider.mistral (by decide) (by decide)
      obtain ⟨c₂, a₂, hg₂, ha₂⟩ := hsucc AIProvider.anthropic (by decide) (by decide)
      rcases hfail with ⟨e, hg⟩ | ⟨c0, e, hg, ha⟩
      · refine ⟨?_, ?_, ?_⟩ <;>
          simp [crossCheckContent, crossCheckLoop_eq_filterMap, providersList,
            crossCheckStep, getBestProvider, hcp, hg₁, ha₁, hg₂, ha₂, hg]
      · refine ⟨?_, ?_, ?_⟩ <;>
          simp [crossCheckContent, crossCheckLoop_eq_filterMap, providersList,
            crossCheckStep, getBestProvider, hcp, hg₁, ha₁, hg₂, ha₂, hg, ha]
  | email =>
    have hcp : crossCheckProviders ContentType.email = [AIProvider.mistral, AIProvider.gemini, AIProvider.anthropic] := by decide
    rw [hcp] at hpf
    simp only [List.mem_cons, List.not_mem_nil, or_false] at hpf
    rcases hpf with rfl | rfl | rfl
    · obtain ⟨c₁, a₁, hg₁, ha₁⟩ := hsucc AIProvider.gemini (by decide) (by decide)
      obtain ⟨c₂, a₂, hg₂, ha₂⟩ := hsucc AIProvider.anthropic (by decide) (by decide)
      rcases hfail with ⟨e, hg⟩ | ⟨c0, e, hg, ha⟩
      · refine ⟨?_, ?_, ?_⟩ <;>
          simp [crossCheckContent, crossCheckLoop_eq_filterMap, providersList,
            crossCheckStep, getBestProvider, hcp, hg₁, ha₁, hg₂, ha₂, hg]
      · refine ⟨?_, ?_, ?_⟩ <;>
          simp [crossCheckContent, crossCheckLoop_eq_filterMap, providersList,
            crossCheckStep, getBestProvider, hcp, hg₁, ha₁, hg₂, ha₂, hg, ha]
    · obtain ⟨c₁, a₁, hg₁, ha₁⟩ := hsucc AIProvider.mistral (by decide) (by decide)
      obtain ⟨c₂, a₂, hg₂, ha₂⟩ := hsucc AIProvider.anthropic (by decide) (by decide)
      rcases hfail with ⟨e, hg⟩ | ⟨c0, e, hg, ha⟩
      · refine ⟨?_, ?_, ?_⟩ <;>
          simp [crossCheckContent, crossCheckLoop_eq_filterMap, providersList,
            crossCheckStep, getBestProvider, hcp, hg₁, ha₁, hg₂, ha₂, hg]
      · refine ⟨?_, ?_, ?_⟩ <;>
          simp [crossCheckContent, crossCheckLoop_eq_filterMap, providersList,
            crossCheckStep, getBestProvider, hcp, hg₁, ha₁, hg₂, ha₂, hg, ha]
    · obtain ⟨c₁, a₁, hg₁, ha₁⟩ := hsucc AIProvider.mistral (by decide) (by decide)
      obtain ⟨c₂, a₂, hg₂, ha₂⟩ := hsucc AIProvider.gemini (by decide) (by decide)
      rcases hfail with ⟨e, hg⟩ | ⟨c0, e, hg, ha⟩
      · refine ⟨?_, ?_, ?_⟩ <;>
          simp [crossCheckContent, crossCheckLoop_eq_filterMap, providersList,
            crossCheckStep, getBestProvider, hcp, hg₁, ha₁, hg₂, ha₂, hg]
      · refine ⟨?_, ?_, ?_⟩ <;>
          simp [crossCheckContent, crossCheckLoop_eq_filterMap, providersList,
            crossCheckStep, getBestProvider, hcp, hg₁, ha₁, hg₂, ha₂, hg, ha]
  | description =>
    have hcp : crossCheckProviders ContentType.description = [AIProvider.gemini, AIProvider.anthropic, AIProvider.cohere] := by decide
    rw [hcp] at hpf
    simp only [List.mem_cons, List.not_mem_nil, or_false] at hpf
    rcases hpf with rfl | rfl | rfl
    · obtain ⟨c₁, a₁, hg₁, ha₁⟩ := hsucc AIProvider.anthropic (by decide) (by decide)
      obtain ⟨c₂, a₂, hg₂, ha₂⟩ := hsucc AIProvider.cohere (by decide) (by decide)
      rcases hfail with ⟨e, hg⟩ | ⟨c0, e, hg, ha⟩
      · refine ⟨?_, ?_, ?_⟩ <;>
          simp [crossCheckContent, crossCheckLoop_eq_filterMap, providersList,
            crossCheckStep, getBestProvider, hcp, hg₁, ha₁, hg₂, ha₂, hg]
      · refine ⟨?_, ?_, ?_⟩ <;>
          simp [crossCheckContent, crossCheckLoop_eq_filterMap, providersList,
            crossCheckStep, getBestProvider, hcp, hg₁, ha₁, hg₂, ha₂, hg, ha]
    · obtain ⟨c₁, a₁, hg₁, ha₁⟩ := hsucc AIProvider.gemini (by decide) (by decide)
      obtain ⟨c₂, a₂, hg₂, ha₂⟩ := hsucc AIProvider.cohere (by decide) (by decide)
      rcases hfail with ⟨e, hg⟩ | ⟨c0, e, hg, ha⟩
      · refine ⟨?_, ?_, ?_⟩ <;>
          simp [crossCheckContent, crossCheckLoop_eq_filterMap, providersList,
            crossCheckStep, getBestProvider, hcp, hg₁, ha₁, hg₂, ha₂, hg]
      · refine ⟨?_, ?_, ?_⟩ <;>
          simp [crossCheckContent, crossCheckLoop_eq_filterMap, providersList,
            crossCheckStep, getBestProvider, hcp, hg₁, ha₁, hg₂, ha₂, hg, ha]
    · obtain ⟨c₁, a₁, hg₁, ha₁⟩ := hsucc AIProvider.gemini (by decide) (by decide)
      obtain ⟨c₂, a₂, hg₂, ha₂⟩ := hsucc AIProvider.anthropic (by decide) (by decide)
      rcases hfail with ⟨e, hg⟩ | ⟨c0, e, hg, ha⟩
      · refine ⟨?_, ?_, ?_⟩ <;>
          simp [crossCheckContent, crossCheckLoop_eq_filterMap, providersList,
            crossCheckStep, getBestProvider, hcp, hg₁, ha₁, hg₂, ha₂, hg]
      · refine ⟨?_, ?_, ?_⟩ <;>
          simp [crossCheckContent, crossCheckLoop_eq_filterMap, providersList,
            crossCheckStep, getBestProvider, hcp, hg₁, ha₁, hg₂, ha₂, hg, ha]

/-- Witness for C6: blog fan-out where gemini's generation throws and
mistral and cohere succeed with analysis data. -/
theorem crossCheck_partial_failure_witness :
    (crossCheckContent
        (fun _ _ p => if p = AIProvider.gemini then .error "down" else .ok "x")
        (fun _ _ => .ok (some ⟨"t", "view", [], [], []⟩))
        "Bali" ContentType.blog "primary").length = 2 ∧
    ((crossCheckContent
        (fun _ _ p => if p = AIProvider.gemini then .error "down" else .ok "x")
        (fun _ _ => .ok (some ⟨"t", "view", [], [], []⟩))
        "Bali" ContentType.blog "primary").map fun r => r.provider) =
      [AIProvider.mistral, AIProvider.cohere] := by
  have h := crossCheck_partial_failure
    (fun _ _ p => if p = AIProvider.gemini then .error "down" else .ok "x")
    (fun _ _ => .ok (some ⟨"t", "view", [], [], []⟩))
    "Bali" "primary" ContentType.blog AIProvider.gemini
    (by decide) (Or.inl ⟨"down", by decide⟩)
    (by
      intro p hp hne
      have hcp : crossCheckProviders ContentType.blog =
          [AIProvider.mistral, AIProvider.gemini, AIProvider.cohere] := by decide
      rw [hcp] at hp
      simp only [List.mem_cons, List.not_mem_nil, or_false] at hp
      rcases hp with rfl | rfl | rfl
      · exact ⟨"x", ⟨"t", "view", [], [], []⟩, by decide, rfl⟩
      · exact absurd rfl hne
      · exact ⟨"x", ⟨"t", "view", [], [], []⟩, by decide, rfl⟩)
  refine ⟨h.1, ?_⟩
  rw [h.2.1]
  decide

